import Mathlib

/-!
Shallow embedding of the georeferencing core of the NetCDF Viewer QGIS
plugin (file src/netcdf_viewer/netcdf_viewer_dialog.py, class
NetCDFViewerDialog).  Numeric attribute values and array payloads are
modelled over the rationals; Python exceptions are modelled with Except,
and a caught exception is an Except.error value consumed by the handler
that the source installs.  String attribute values stand for the
non-numeric strings relevant to the error-handling claims: the Python
float builtin raises ValueError on them, and NumPy raises TypeError when
an array is multiplied by them.
-/

/-- An attribute value of a NetCDF variable: either a numeric scalar or a
non-numeric string. -/
inductive AttrValue where
  | num (q : ℚ)
  | str (s : String)
deriving Repr, DecidableEq

/-- A NetCDF variable: ordered dimension names, shape, attribute mapping
and the (flattened, row-major) numeric payload. -/
structure Variable where
  dimensions : List String
  shape : List Nat
  attrs : List (String × AttrValue)
  data : List ℚ
deriving Repr, DecidableEq

/-- A NetCDF dataset: the ordered mapping of variable name to Variable
(self.dataset.variables). -/
structure Dataset where
  vars : List (String × Variable)
deriving Repr, DecidableEq

/-- Lookup of self.dataset.variables[name]; None models a failed
membership test (name in self.dataset.variables). -/
def lookupVar (ds : Dataset) (name : String) : Option Variable :=
  (ds.vars.find? (fun p => p.1 == name)).map (fun p => p.2)

/-- getattr(var, name) for attributes, as an Option; hasattr is isSome. -/
def getAttr (v : Variable) (name : String) : Option AttrValue :=
  (v.attrs.find? (fun p => p.1 == name)).map (fun p => p.2)

/-- The Python float builtin applied to an attribute value: numeric values
coerce, the (non-numeric) strings modelled here raise ValueError. -/
def pyFloat : AttrValue → Except String ℚ
  | .num q => .ok q
  | .str s => .error ("ValueError: could not convert string to float: " ++ s)

/-- Word splitting on spaces by structural recursion over the character
list, accumulating the current word in reverse; empty pieces are
dropped, as Python str.split() does. -/
def splitWordsAux : List Char → List Char → List (List Char)
  | [], cur => if cur.isEmpty then [] else [cur.reverse]
  | c :: rest, cur =>
    if c = ' ' then
      if cur.isEmpty then splitWordsAux rest [] else cur.reverse :: splitWordsAux rest []
    else splitWordsAux rest (c :: cur)

/-- Python str.split() on the whitespace-separated coordinates attribute
(space-separated in the inputs modelled here). -/
def pySplit (s : String) : List String :=
  (splitWordsAux s.toList []).map List.asString

/-- Python abs, written with an if so that concrete inputs evaluate
inside the kernel. -/
def pyAbs (q : ℚ) : ℚ := if q < 0 then -q else q

/-- Candidate x coordinate names (x_coords, line 257 of the source). -/
def x_coords : List String := ["x", "lon", "longitude", "projection_x_coordinate"]

/-- Candidate y coordinate names (y_coords, line 258 of the source). -/
def y_coords : List String := ["y", "lat", "latitude", "projection_y_coordinate"]

/-- hasattr(coord_var, axis) and getattr(coord_var, axis) == c; a numeric
axis attribute compares unequal to a string without raising. -/
def axisIs (v : Variable) (c : String) : Bool :=
  match getAttr v "axis" with
  | some (.str s) => s == c
  | some (.num _) => false
  | none => false

/-- The classification loop shared by both resolution passes of
get_geotransform (lines 263-271 and 275-283): for each name that is a
dataset variable, assign it to the x slot when its name is in x_coords or
its axis attribute equals X, else to the y slot symmetrically.  Each
match overwrites the slot (plain Python assignment). -/
def classifyNames (ds : Dataset) (names : List String)
    (st : Option (String × Variable) × Option (String × Variable)) :
    Option (String × Variable) × Option (String × Variable) :=
  names.foldl (fun st n =>
    match lookupVar ds n with
    | none => st
    | some cv =>
      if n ∈ x_coords ∨ axisIs cv "X" then (some (n, cv), st.2)
      else if n ∈ y_coords ∨ axisIs cv "Y" then (st.1, some (n, cv))
      else st) st

/-- First resolution pass of get_geotransform (lines 261-271): the
coordinates attribute, when present, is split and classified.  A numeric
coordinates attribute has no split method and raises. -/
def resolveStep1 (ds : Dataset) (var : Variable) :
    Except String (Option (String × Variable) × Option (String × Variable)) :=
  match getAttr var "coordinates" with
  | none => .ok (none, none)
  | some (.num _) => .error "AttributeError: float object has no attribute split"
  | some (.str s) => .ok (classifyNames ds (pySplit s) (none, none))

/-- Both resolution passes of get_geotransform (lines 261-283): when either
slot is still empty after the coordinates-attribute pass, the dimension
names of the variable are classified over the state of the first pass. -/
def resolveCoords (ds : Dataset) (var : Variable) :
    Except String (Option (String × Variable) × Option (String × Variable)) :=
  match resolveStep1 ds var with
  | .error e => .error e
  | .ok st1 =>
    .ok (if st1.1.isNone || st1.2.isNone then classifyNames ds var.dimensions st1 else st1)

/-- x = x_var[:] with the 2-D reduction x = x[0, :] (lines 286-291): a
rank-2 payload keeps its first row.  A rank-0 or rank-over-2 payload makes
the later body raise (len of a 0-d array, float of a size-over-1 array);
the error is surfaced here. -/
def extractX (v : Variable) : Except String (List ℚ) :=
  match v.shape with
  | [] => .error "TypeError: len of unsized object"
  | [_] => .ok v.data
  | [_, c] => .ok (v.data.take c)
  | _ => .error "ValueError: only size-1 arrays convert to scalars"

/-- y = y_var[:] with the 2-D reduction y = y[:, 0] (lines 287-293): a
rank-2 payload of shape r by c keeps its first column. -/
def extractY (v : Variable) : Except String (List ℚ) :=
  match v.shape with
  | [] => .error "TypeError: len of unsized object"
  | [_] => .ok v.data
  | [r, c] => .ok ((List.range r).map (fun i => v.data.getD (i * c) 0))
  | _ => .error "ValueError: only size-1 arrays convert to scalars"

/-- The satellite height used by the geostationary conversion:
getattr(proj_var, perspective_point_height, 35786023.0), line 305. -/
def heightOf (pv : Variable) : AttrValue :=
  (getAttr pv "perspective_point_height").getD (.num 35786023)

/-- Body of get_geotransform (lines 248-348), before the enclosing
try/except.  Returns some (six-element transform, (x name, y name)) when
both axes resolve, none when they do not, and an error where the Python
body raises: a numeric coordinates attribute, an unusable coordinate
payload rank, multiplication of an array by a non-numeric height, or
indexing an empty coordinate array. -/
def get_geotransform_body (ds : Dataset) (var : Variable) :
    Except String (Option (List ℚ × (String × String))) :=
  match resolveCoords ds var with
  | .error e => .error e
  | .ok (some (xn, xv), some (yn, yv)) =>
    match extractX xv, extractY yv with
    | .ok x0, .ok y0 =>
      let xasc := if x0.length > 1 then decide (x0.getD 0 0 < x0.getD 1 0) else true
      let yasc := if y0.length > 1 then decide (y0.getD 0 0 < y0.getD 1 0) else true
      let scaled : Except String (List ℚ × List ℚ) :=
        match lookupVar ds "goes_imager_projection" with
        | some pv =>
          match heightOf pv with
          | .num h => .ok (x0.map (fun q => q * h), y0.map (fun q => q * h))
          | .str _ => .error "TypeError: cannot multiply array by str"
        | none => .ok (x0, y0)
      match scaled with
      | .error e => .error e
      | .ok (x, y) =>
        let pw := if x.length > 1 then pyAbs (x.getD 1 0 - x.getD 0 0) else 1
        let ph := if y.length > 1 then pyAbs (y.getD 1 0 - y.getD 0 0) else 1
        match x.get? 0 with
        | none => .error "IndexError: index 0 is out of bounds"
        | some xFirst =>
          let xmin := if xasc then xFirst else x.getLastD 0
          let pw2 := if xasc then pw else -pw
          match y.get? 0 with
          | none => .error "IndexError: index 0 is out of bounds"
          | some yFirst =>
            let ymax := if yasc then y.getLastD 0 else yFirst
            let ph2 := if yasc then -ph else ph
            .ok (some ([xmin, pw2, 0, ymax, 0, -ph2], (xn, yn)))
    | .error e, _ => .error e
    | _, .error e => .error e
  | .ok _ => .ok none

/-- get_geotransform (lines 246-351): the whole body is wrapped in
try/except, and any raised exception is logged and converted to the
(None, None) return value. -/
def get_geotransform (ds : Dataset) (var : Variable) :
    Option (List ℚ × (String × String)) :=
  match get_geotransform_body ds var with
  | .ok r => r
  | .error _ => none

/-- The ordered candidate grid-mapping variable names (proj_vars,
lines 176-177 of the source). -/
def proj_vars : List String :=
  ["crs", "transverse_mercator", "projection", "lambert_conformal_conic",
   "goes_imager_projection", "polar_stereographic", "grid_mapping"]

/-- The five grid_mapping_name values the classifier dispatches on. -/
def recognizedNames : List String :=
  ["latitude_longitude", "transverse_mercator", "lambert_conformal_conic",
   "geostationary", "polar_stereographic"]

/-- The osr.SpatialReference object as configured by get_projection_info:
empty is the freshly constructed, never configured reference. -/
inductive SRS where
  | empty
  | epsg4326
  | tm (lat0 lon0 k fe fn : ℚ)
  | lcc (sp1 sp2 lat0 lon0 fe fn : ℚ)
  | geos (h lon0 : AttrValue)
  | ps (lat0 lon0 k fe fn : ℚ)
deriving Repr, DecidableEq

/-- A printable rendering of an attribute value, for the proj-string
interpolation of the geostationary branch. -/
def AttrValue.show : AttrValue → String
  | .num q => toString q
  | .str s => s

/-- srs.ExportToWkt(): an unconfigured reference exports the empty
string; configured references export a non-empty description. -/
def SRS.wkt : SRS → String
  | .empty => ""
  | .epsg4326 => "GEOGCS EPSG 4326"
  | .tm lat0 lon0 k fe fn =>
    "PROJCS TM " ++ toString lat0 ++ " " ++ toString lon0 ++ " " ++ toString k ++
      " " ++ toString fe ++ " " ++ toString fn
  | .lcc sp1 sp2 lat0 lon0 fe fn =>
    "PROJCS LCC " ++ toString sp1 ++ " " ++ toString sp2 ++ " " ++ toString lat0 ++
      " " ++ toString lon0 ++ " " ++ toString fe ++ " " ++ toString fn
  | .geos h lon0 =>
    "+proj=geos +h=" ++ h.show ++ " +lon_0=" ++ lon0.show ++ " +datum=WGS84 +units=m +no_defs"
  | .ps lat0 lon0 k fe fn =>
    "PROJCS PS " ++ toString lat0 ++ " " ++ toString lon0 ++ " " ++ toString k ++
      " " ++ toString fe ++ " " ++ toString fn

/-- A numeric argument handed to an osr setter (SetTM, SetLCC, SetPS):
a non-numeric attribute value raises TypeError. -/
def numArg (a : AttrValue) : Except String ℚ :=
  match a with
  | .num q => .ok q
  | .str _ => .error "TypeError: in method, argument of type double expected"

/-- proj_attrs.get(name, default) with a numeric default. -/
def attrOr (pv : Variable) (name : String) (d : ℚ) : AttrValue :=
  (getAttr pv name).getD (.num d)

/-- The grid_mapping_name dispatch of get_projection_info
(lines 197-236): each recognized name configures the reference from the
attribute set with the documented defaults; an absent, numeric or
unrecognized grid_mapping_name leaves the reference unconfigured. -/
def classify (pv : Variable) : Except String SRS :=
  match getAttr pv "grid_mapping_name" with
  | some (.str name) =>
    if name = "latitude_longitude" then .ok .epsg4326
    else if name = "transverse_mercator" then
      match numArg (attrOr pv "latitude_of_projection_origin" 0),
            numArg (attrOr pv "longitude_of_central_meridian" 0),
            numArg (attrOr pv "scale_factor_at_central_meridian" 1),
            numArg (attrOr pv "false_easting" 0),
            numArg (attrOr pv "false_northing" 0) with
      | .ok a, .ok b, .ok c, .ok d, .ok e => .ok (.tm a b c d e)
      | _, _, _, _, _ => .error "TypeError: SetTM argument"
    else if name = "lambert_conformal_conic" then
      match numArg (attrOr pv "standard_parallel_1" 30),
            numArg (attrOr pv "standard_parallel_2" 60),
            numArg (attrOr pv "latitude_of_projection_origin" 0),
            numArg (attrOr pv "longitude_of_central_meridian" 0),
            numArg (attrOr pv "false_easting" 0),
            numArg (attrOr pv "false_northing" 0) with
      | .ok a, .ok b, .ok c, .ok d, .ok e, .ok f => .ok (.lcc a b c d e f)
      | _, _, _, _, _, _ => .error "TypeError: SetLCC argument"
    else if name = "geostationary" then
      .ok (.geos (attrOr pv "perspective_point_height" 0)
                 (attrOr pv "longitude_of_projection_origin" 0))
    else if name = "polar_stereographic" then
      match numArg (attrOr pv "latitude_of_projection_origin" 90),
            numArg (attrOr pv "longitude_of_projection_origin" 0),
            numArg (attrOr pv "scale_factor" 1),
            numArg (attrOr pv "false_easting" 0),
            numArg (attrOr pv "false_northing" 0) with
      | .ok a, .ok b, .ok c, .ok d, .ok e => .ok (.ps a b c d e)
      | _, _, _, _, _ => .error "TypeError: SetPS argument"
    else .ok .empty
  | some (.num _) => .ok .empty
  | none => .ok .empty

/-- The candidate scan of get_projection_info (lines 179-184): the first
name of proj_vars that is a dataset variable wins. -/
def firstProjVar (ds : Dataset) : Option (String × Variable) :=
  proj_vars.findSome? (fun n => (lookupVar ds n).map (fun v => (n, v)))

/-- get_projection_info (lines 173-244): None, None when no candidate
grid-mapping variable exists, otherwise the configured (possibly still
empty) spatial reference and the candidate name.  Exceptions raised by
the osr setters propagate to the caller. -/
def get_projection_info (ds : Dataset) : Except String (Option SRS × Option String) :=
  match firstProjVar ds with
  | none => .ok (none, none)
  | some (n, pv) =>
    match classify pv with
    | .error e => .error e
    | .ok srs => .ok (some srs, some n)

/-- The fill-value resolution of visualize (lines 383-389): _FillValue,
then missing_value, then the hardcoded default, each coerced with float. -/
def fillOf (var : Variable) : Except String ℚ :=
  match getAttr var "_FillValue" with
  | some a => pyFloat a
  | none =>
    match getAttr var "missing_value" with
    | some a => pyFloat a
    | none => .ok (-9999)

/-- float(getattr(var, scale_factor, 1.0)), line 392. -/
def scaleOf (var : Variable) : Except String ℚ :=
  pyFloat ((getAttr var "scale_factor").getD (.num 1))

/-- float(getattr(var, add_offset, 0.0)), line 393. -/
def offsetOf (var : Variable) : Except String ℚ :=
  pyFloat ((getAttr var "add_offset").getD (.num 0))

/-- The state of the GDAL output dataset created by visualize. -/
structure RasterOut where
  path : String
  xsize : Nat
  ysize : Nat
  projection : String
  geotransform : Option (List ℚ)
  band : Option (List ℚ)
  nodata : Option ℚ
  statsComputed : Bool
  closed : Bool
deriving Repr, DecidableEq

/-- The observable outcome of one visualize call: temporary files created,
the output raster state, messages pushed to the message bar, layers added
to the project, and the exception re-raised by the outer handler, if any. -/
structure VisResult where
  files : List String
  raster : Option RasterOut
  messages : List String
  layers : List String
  raised : Option String
deriving Repr, DecidableEq

/-- The fresh temporary path handed out by tempfile.mkstemp. -/
def tempPath : String := "/tmp/out.tif"

/-- The message pushed for a variable of rank below 2 (lines 366-367). -/
def rankMessage (name : String) : String :=
  "Error: Variable " ++ name ++ " must have at least 2 dimensions for visualization"

/-- visualize (lines 353-475).  The early rank check pushes a message and
returns before the temporary file is made; afterwards the fill, scale and
offset attributes are coerced, the raster is allocated with width
data.shape[1] and height data.shape[0], the projection (when a candidate
was found) and the geotransform (when built) are set, the scaled array is
written (GDAL accepts only a rank-2 array), the scaled fill value becomes
the no-data value, statistics are computed, the file is closed and the
layer is registered.  Any exception is caught by the outer handler, which
pushes its message and re-raises. -/
def visualize (ds : Dataset) (varName : String) : VisResult :=
  if varName = "" then ⟨[], none, [], [], none⟩
  else
    match lookupVar ds varName with
    | none =>
      ⟨[], none, ["KeyError: " ++ varName], [], some ("KeyError: " ++ varName)⟩
    | some var =>
      if var.shape.length < 2 then
        ⟨[], none, [rankMessage varName], [], none⟩
      else
        match fillOf var with
        | .error e => ⟨[tempPath], none, [e], [], some e⟩
        | .ok fill =>
          match scaleOf var with
          | .error e => ⟨[tempPath], none, [e], [], some e⟩
          | .ok scale =>
            match offsetOf var with
            | .error e => ⟨[tempPath], none, [e], [], some e⟩
            | .ok offset =>
              let fill2 := fill * scale + offset
              let data2 := var.data.map (fun v => v * scale + offset)
              let r0 : RasterOut :=
                ⟨tempPath, var.shape.getD 1 0, var.shape.getD 0 0,
                 "", none, none, none, false, false⟩
              match get_projection_info ds with
              | .error e => ⟨[tempPath], some r0, [e], [], some e⟩
              | .ok (srsOpt, _) =>
                let r1 :=
                  match srsOpt with
                  | some s => { r0 with projection := SRS.wkt s }
                  | none => r0
                let r2 :=
                  match get_geotransform ds var with
                  | some (gt, _) => { r1 with geotransform := some gt }
                  | none => r1
                if var.shape.length = 2 then
                  let r6 := { r2 with band := some data2, nodata := some fill2,
                                      statsComputed := true, closed := true }
                  ⟨[tempPath], some r6, [], [varName], none⟩
                else
                  ⟨[tempPath], some r2, ["ValueError: expected array of dim 2"], [],
                   some "ValueError: expected array of dim 2"⟩

/-- Does the candidate grid-mapping variable carry a grid_mapping_name
that the classifier dispatches on?  Used to state the unknown-descriptor
claim. -/
def gmnRecognized (pv : Variable) : Bool :=
  match getAttr pv "grid_mapping_name" with
  | some (.str s) => decide (s ∈ recognizedNames)
  | _ => false

/-- Helper for building the concrete example variables. -/
def mkVar (dims : List String) (shape : List Nat)
    (attrs : List (String × AttrValue)) (data : List ℚ) : Variable :=
  ⟨dims, shape, attrs, data⟩

/-- C1 example: a 2 by 2 variable with ascending x and ascending y
coordinate variables. -/
def c1var : Variable := mkVar ["y", "x"] [2, 2] [] [1, 2, 3, 4]

/-- C1 example dataset. -/
def c1ds : Dataset :=
  ⟨[("data", c1var), ("x", mkVar ["x"] [2] [] [0, 1]),
    ("y", mkVar ["y"] [2] [] [0, 1])]⟩

/-- C2 example: a rank-3 variable of shape 2 by 3 by 4. -/
def c2var : Variable :=
  mkVar ["t", "y", "x"] [2, 3, 4] [] ((List.range 24).map (fun n => (n : ℚ)))

/-- C2 example dataset. -/
def c2ds : Dataset := ⟨[("data", c2var)]⟩

/-- C2 witness: a rank-2 variable of shape 2 by 3. -/
def c2wvar : Variable := mkVar ["y", "x"] [2, 3] [] [1, 2, 3, 4, 5, 6]

/-- C2 witness dataset. -/
def c2wds : Dataset := ⟨[("data", c2wvar)]⟩

/-- C3 counterexample: the coordinates attribute names only xc, which
classifies as the x axis by its axis attribute. -/
def c3var : Variable := mkVar ["y", "x"] [2, 2] [("coordinates", .str "xc")] [1, 2, 3, 4]

/-- C3 counterexample: the coordinate variable named by the coordinates
attribute. -/
def c3xc : Variable := mkVar ["x"] [2] [("axis", .str "X")] [100, 200]

/-- C3 counterexample dataset: xc resolves from the coordinates
attribute, while the dimensions y and x are also coordinate variables. -/
def c3ds : Dataset :=
  ⟨[("data", c3var), ("xc", c3xc), ("x", mkVar ["x"] [2] [] [0, 1]),
    ("y", mkVar ["y"] [2] [] [5, 0])]⟩

/-- C3 witness: a variable whose coordinates attribute resolves both
axes. -/
def c3wvar : Variable :=
  mkVar ["a", "b"] [2, 2] [("coordinates", .str "lon lat")] [1, 2, 3, 4]

/-- C3 witness: the x coordinate variable. -/
def c3wlon : Variable := mkVar ["a"] [2] [] [0, 1]

/-- C3 witness: the y coordinate variable. -/
def c3wlat : Variable := mkVar ["b"] [2] [] [0, 1]

/-- C3 witness dataset. -/
def c3wds : Dataset :=
  ⟨[("data", c3wvar), ("lon", c3wlon), ("lat", c3wlat),
    ("a", mkVar ["a"] [2] [] [7, 8]), ("b", mkVar ["b"] [2] [] [7, 8])]⟩

/-- C4 witness: a crs candidate whose grid_mapping_name is not one of the
five recognized names. -/
def c4pv : Variable := mkVar [] [] [("grid_mapping_name", .str "martian_grid")] []

/-- C4 witness dataset. -/
def c4ds : Dataset :=
  ⟨[("crs", c4pv), ("data", mkVar ["y", "x"] [2, 2] [] [1, 2, 3, 4])]⟩

/-- C5 counterexample: a variable whose scale_factor attribute is a
non-numeric string. -/
def c5var : Variable := mkVar ["y", "x"] [2, 2] [("scale_factor", .str "bad")] [1, 2, 3, 4]

/-- C5 counterexample dataset. -/
def c5ds : Dataset := ⟨[("data", c5var)]⟩

/-- C5 witness: a goes_imager_projection variable whose
perspective_point_height is a non-numeric string. -/
def c5hpv : Variable := mkVar [] [] [("perspective_point_height", .str "high")] []

/-- C5 witness: the target variable of the satellite-height half. -/
def c5hvar : Variable := mkVar ["y", "x"] [2, 2] [] [1, 2, 3, 4]

/-- C5 witness dataset for the satellite-height half. -/
def c5hds : Dataset :=
  ⟨[("goes_imager_projection", c5hpv), ("data", c5hvar),
    ("x", mkVar ["x"] [2] [] [0, 1]), ("y", mkVar ["y"] [2] [] [0, 1])]⟩

/-- C4 witness: the raster that visualize produces on the witness
dataset. -/
def c4raster : RasterOut :=
  ⟨tempPath, 2, 2, "", none, some [1, 2, 3, 4], some (-9999), true, true⟩

/-- C2 witness: the raster that visualize produces on the rank-2 witness
dataset. -/
def c2wraster : RasterOut :=
  ⟨tempPath, 3, 2, "", none, some [1, 2, 3, 4, 5, 6], some (-9999), true, true⟩

/-- C6 witness: a rank-1 variable. -/
def c6var : Variable := mkVar ["x"] [4] [] [1, 2, 3, 4]

/-- C6 witness dataset. -/
def c6ds : Dataset := ⟨[("data", c6var)]⟩

/-- C7 witness: the target variable. -/
def c7var : Variable := mkVar ["y", "x"] [2, 2] [] [1, 2, 3, 4]

/-- C7 witness: the satellite grid-mapping variable carrying the standard
height. -/
def c7pv : Variable := mkVar [] [] [("perspective_point_height", .num 35786023)] []

/-- C7 witness dataset: radian-scale coordinates with the
goes_imager_projection variable present. -/
def c7ds : Dataset :=
  ⟨[("data", c7var), ("x", mkVar ["x"] [2] [] [0, 2]),
    ("y", mkVar ["y"] [2] [] [2, 0]), ("goes_imager_projection", c7pv)]⟩

/-- C8 witness: a variable with fill, scale and offset attributes. -/
def c8var : Variable :=
  mkVar ["y", "x"] [2, 2]
    [("_FillValue", .num (-999)), ("scale_factor", .num 2), ("add_offset", .num 1)]
    [1, -999, 3, 4]

/-- C8 witness dataset. -/
def c8ds : Dataset := ⟨[("data", c8var)]⟩

/-- C9 witness: a rank-2 variable whose dimensions are not coordinate
variables, so no coordinate pair resolves. -/
def c9var : Variable := mkVar ["d0", "d1"] [2, 2] [] [1, 2, 3, 4]

/-- C9 witness dataset. -/
def c9ds : Dataset := ⟨[("data", c9var)]⟩

/-- C10 witness: the target variable. -/
def c10var : Variable := mkVar ["y", "x"] [2, 2] [] [1, 2, 3, 4]

/-- C10 witness dataset: the y coordinate variable has an empty payload,
so the geotransform body raises an IndexError internally. -/
def c10ds : Dataset :=
  ⟨[("data", c10var), ("x", mkVar ["x"] [2] [] [0, 1]),
    ("y", mkVar ["y"] [0] [] [])]⟩

/-- Helper: the executable absolute value agrees with the Mathlib one. -/
theorem pyAbs_eq_abs (q : ℚ) : pyAbs q = |q| := by
  unfold pyAbs
  rcases le_or_lt 0 q with h | h
  · rw [if_neg (not_lt.mpr h), abs_of_nonneg h]
  · rw [if_pos h, abs_of_neg h]

/-- Helper: an unrecognized, numeric or absent grid_mapping_name leaves
the spatial reference unconfigured. -/
theorem classify_unrecognized (pv : Variable) (h : gmnRecognized pv = false) :
    classify pv = .ok .empty := by
  unfold gmnRecognized at h
  unfold classify
  rcases hg : getAttr pv "grid_mapping_name" with _ | v
  · rfl
  · rw [hg] at h
    cases v with
    | num q => rfl
    | str s =>
      simp only [recognizedNames, List.mem_cons, List.mem_singleton,
        decide_eq_false_iff_not, not_or, List.not_mem_nil, or_false] at h
      obtain ⟨h1, h2, h3, h4, h5⟩ := h
      simp [h1, h2, h3, h4, h5]

/-- Helper: the complete success path of visualize, fully evaluated. -/
theorem visualize_success (ds : Dataset) (name : String) (var : Variable)
    (fill scale offset : ℚ) (pr : Option SRS × Option String)
    (hn : name ≠ "") (hv : lookupVar ds name = some var)
    (h2 : var.shape.length = 2)
    (hf : fillOf var = .ok fill) (hs : scaleOf var = .ok scale)
    (ho : offsetOf var = .ok offset) (hp : get_projection_info ds = .ok pr) :
    visualize ds name =
      ⟨[tempPath],
       some ⟨tempPath, var.shape.getD 1 0, var.shape.getD 0 0,
             (match pr.1 with | some s => s.wkt | none => ""),
             (get_geotransform ds var).map Prod.fst,
             some (var.data.map (fun v => v * scale + offset)),
             some (fill * scale + offset), true, true⟩,
       [], [name], none⟩ := by
  unfold visualize
  rw [if_neg hn, hv]
  simp only [h2, hf, hs, ho, hp]
  norm_num
  obtain ⟨srsOpt, gm⟩ := pr
  cases srsOpt <;> rcases hg : get_geotransform ds var with _ | ⟨gt, names⟩ <;>
    simp [hg]

/-- C1: the claim says the stored pixel-height (sixth geotransform
element) is strictly negative for every resolved axis pair, with origin-y
the topmost coordinate.  On an ascending Y axis the source negates the
pixel height twice (lines 325 and 334), so the stored sixth element is
positive: on x = [0, 1], y = [0, 1] the builder returns origin-y 1 (the
last, topmost element, as claimed) but pixel-height +1, contradicting the
north-up invariant stated in the source comments.  This theorem evaluates
the code at the failing input. -/
theorem c1_positive_sixth_on_ascending_y :
    get_geotransform c1ds c1var = some ([0, 1, 0, 1, 0, 1], ("x", "y")) ∧
      (0 : ℚ) < [(0 : ℚ), 1, 0, 1, 0, 1].getD 5 0 := by
  constructor
  · with_unfolding_all decide
  · norm_num

/-- C2 counterexample: for the rank-3 variable of shape [2, 3, 4] the
output raster is allocated with height 2 and width 3 (the first two
extents), not height 3 and width 4 (the last two extents), and no slice
over the leading dimension is taken. -/
theorem c2_counterexample :
    (visualize c2ds "data").raster.map (fun r => (r.ysize, r.xsize)) = some (2, 3) ∧
      c2var.shape = [2, 3, 4] ∧ ((2 : ℕ), (3 : ℕ)) ≠ ((3 : ℕ), (4 : ℕ)) := by
  refine ⟨rfl, rfl, by decide⟩

/-- C2 amended: the raster is always sized from the first two dimension
extents (height = extent of dimension 0, width = extent of dimension 1);
for rank 2 these coincide with the last two, and for rank over 2 no
default slice is taken — the band write of the full array fails, so no
band data is written and the raster is never finalized. -/
theorem c2_amended_first_two_extents (ds : Dataset) (name : String)
    (var : Variable) (r : RasterOut) (hv : lookupVar ds name = some var)
    (hr : (visualize ds name).raster = some r) :
    r.ysize = var.shape.getD 0 0 ∧ r.xsize = var.shape.getD 1 0 ∧
      (2 < var.shape.length → r.band = none ∧ r.closed = false) := by
  unfold visualize at hr
  by_cases hn : name = ""
  · rw [if_pos hn] at hr
    exact absurd hr (by simp)
  rw [if_neg hn] at hr
  simp only [hv] at hr
  by_cases h2 : var.shape.length < 2
  · rw [if_pos h2] at hr
    exact absurd hr (by simp)
  rw [if_neg h2] at hr
  rcases hf : fillOf var with e | fill <;> rw [hf] at hr
  · exact absurd hr (by simp)
  rcases hs : scaleOf var with e | scale <;> rw [hs] at hr
  · exact absurd hr (by simp)
  rcases ho : offsetOf var with e | offset <;> rw [ho] at hr
  · exact absurd hr (by simp)
  rcases hp : get_projection_info ds with e | ⟨srsOpt, gm⟩ <;> rw [hp] at hr
  · simp only [Option.some.injEq] at hr
    subst hr
    refine ⟨rfl, rfl, fun _ => ⟨rfl, rfl⟩⟩
  rcases hgt : get_geotransform ds var with _ | ⟨gt, names⟩ <;> rw [hgt] at hr <;>
    cases srsOpt <;> by_cases hl2 : var.shape.length = 2 <;>
    simp only [hl2, if_true, if_false, reduceIte, Option.some.injEq] at hr <;>
    subst hr <;>
    refine ⟨rfl, rfl, fun hgt2 => ?_⟩ <;> first | (exact ⟨rfl, rfl⟩) | omega

/-- C3 counterexample: the coordinates-attribute pass resolves the x axis
to the variable xc, the y axis stays unresolved, and the dimension-name
fallback then replaces the already-resolved x axis with the dimension
variable x — the returned coordinate names are (x, y), not (xc, y). -/
theorem c3_counterexample :
    resolveStep1 c3ds c3var = .ok (some ("xc", c3xc), none) ∧
      get_geotransform c3ds c3var = some ([0, 1, 0, 5, 0, -5], ("x", "y")) ∧
      ("x" : String) ≠ "xc" := by
  refine ⟨by with_unfolding_all rfl, by with_unfolding_all decide, by decide⟩

/-- C3 amended: the fallback over dimension names runs only when at least
one axis is still unresolved after the coordinates-attribute pass — when
both axes were resolved there, the fallback is skipped and cannot replace
them; when it does run it re-classifies every dimension name and may
overwrite an axis already resolved from the coordinates attribute. -/
theorem c3_amended_fallback_skipped_when_both_resolved (ds : Dataset)
    (var : Variable)
    (st : Option (String × Variable) × Option (String × Variable))
    (h : resolveStep1 ds var = .ok st) (hx : st.1.isSome) (hy : st.2.isSome) :
    resolveCoords ds var = .ok st := by
  unfold resolveCoords
  rw [h]
  rw [Option.isSome_iff_ne_none] at hx hy
  simp [Option.isNone_iff_eq_none, hx, hy]

/-- C3 witness: both axes resolve from the coordinates attribute of the
witness variable, and the fallback leaves them untouched. -/
theorem c3_witness :
    resolveCoords c3wds c3wvar = .ok (some ("lon", c3wlon), some ("lat", c3wlat)) :=
  c3_amended_fallback_skipped_when_both_resolved c3wds c3wvar
    (some ("lon", c3wlon), some ("lat", c3wlat)) (by with_unfolding_all rfl)
    (by with_unfolding_all decide) (by with_unfolding_all decide)

/-- C2 witness: on a rank-2 variable of shape [2, 3] the raster extents
equal the two dimension extents. -/
theorem c2_witness :
    c2wraster.ysize = c2wvar.shape.getD 0 0 ∧ c2wraster.xsize = c2wvar.shape.getD 1 0 ∧
      (2 < c2wvar.shape.length → c2wraster.band = none ∧ c2wraster.closed = false) :=
  c2_amended_first_two_extents c2wds "data" c2wvar c2wraster (by with_unfolding_all rfl)
    (by with_unfolding_all rfl)

/-- C4: when a candidate grid-mapping variable exists but its
grid_mapping_name attribute is absent, numeric or not one of the five
recognized names, classification returns the unconfigured (unknown)
reference without an error, and every raster visualize produces carries
the empty projection string — the spatial reference of the output stays
unset, not defaulted. -/
theorem c4_unknown_projection_unset (ds : Dataset) (n : String) (pv : Variable)
    (hfind : firstProjVar ds = some (n, pv)) (hunrec : gmnRecognized pv = false) :
    get_projection_info ds = .ok (some .empty, some n) ∧
      ∀ name r, (visualize ds name).raster = some r → r.projection = "" := by
  have hcl : classify pv = .ok .empty := classify_unrecognized pv hunrec
  have hp : get_projection_info ds = .ok (some .empty, some n) := by
    simp only [get_projection_info, hfind, hcl]
  refine ⟨hp, ?_⟩
  intro name r hr
  unfold visualize at hr
  by_cases hn : name = ""
  · rw [if_pos hn] at hr
    exact absurd hr (by simp)
  rw [if_neg hn] at hr
  rcases hv : lookupVar ds name with _ | var <;> simp only [hv] at hr
  · exact absurd hr (by simp)
  by_cases h2 : var.shape.length < 2
  · rw [if_pos h2] at hr
    exact absurd hr (by simp)
  rw [if_neg h2] at hr
  rcases hf : fillOf var with e | fill <;> rw [hf] at hr
  · exact absurd hr (by simp)
  rcases hs : scaleOf var with e | scale <;> rw [hs] at hr
  · exact absurd hr (by simp)
  rcases ho : offsetOf var with e | offset <;> rw [ho] at hr
  · exact absurd hr (by simp)
  rw [hp] at hr
  rcases hgt : get_geotransform ds var with _ | ⟨gt, names⟩ <;> rw [hgt] at hr <;>
    by_cases hl2 : var.shape.length = 2 <;>
    simp only [hl2, reduceIte, Option.some.injEq] at hr <;>
    subst hr <;> rfl

/-- C4 witness: the crs candidate with an unrecognized grid_mapping_name
classifies as unknown and the produced raster carries no projection. -/
theorem c4_witness :
    get_projection_info c4ds = .ok (some SRS.empty, some "crs") ∧
      c4raster.projection = "" := by
  have h := c4_unknown_projection_unset c4ds "crs" c4pv (by with_unfolding_all rfl) rfl
  exact ⟨h.1, h.2 "data" c4raster (by with_unfolding_all rfl)⟩

/-- C5 counterexample: the scale_factor attribute is present with a
non-numeric value and visualize aborts with the coercion error instead of
falling back to the default 1.0 and completing. -/
theorem c5_counterexample :
    getAttr c5var "scale_factor" = some (.str "bad") ∧
      (visualize c5ds "data").raised ≠ none := by
  exact ⟨by with_unfolding_all rfl, by with_unfolding_all decide⟩

/-- C5 amended: the documented defaults apply only when the attribute is
absent.  A present non-numeric scale_factor aborts the visualize request
with the coercion error, and a present non-numeric
perspective_point_height makes the whole geotransform unavailable; in
neither case is the default value substituted. -/
theorem c5_amended_present_nonnumeric_aborts :
    (∀ ds name var s, name ≠ "" → lookupVar ds name = some var →
        ¬ var.shape.length < 2 → getAttr var "scale_factor" = some (.str s) →
        (visualize ds name).raised.isSome = true) ∧
    (∀ ds var pv s, lookupVar ds "goes_imager_projection" = some pv →
        heightOf pv = .str s → get_geotransform ds var = none) := by
  constructor
  · intro ds name var s hn hv h2 hs
    have hsc : scaleOf var = .error ("ValueError: could not convert string to float: " ++ s) := by
      unfold scaleOf
      rw [hs]
      rfl
    unfold visualize
    rw [if_neg hn]
    simp only [hv]
    rw [if_neg h2]
    rcases hf : fillOf var with e | fill
    · rfl
    · rw [hsc]
      rfl
  · intro ds var pv s hpv hh
    unfold get_geotransform get_geotransform_body
    rcases hrc : resolveCoords ds var with e | ⟨xOpt, yOpt⟩
    · rfl
    rcases xOpt with _ | ⟨xn, xv⟩
    · rfl
    rcases yOpt with _ | ⟨yn, yv⟩
    · rfl
    rcases hex : extractX xv with e | x0 <;> rcases hey : extractY yv with e2 | y0 <;>
      simp only [hex, hey, hpv, hh]

/-- C5 witness: the scale_factor abort on the counterexample dataset and
the unavailable geotransform under a non-numeric satellite height. -/
theorem c5_witness :
    (visualize c5ds "data").raised.isSome = true ∧
      get_geotransform c5hds c5hvar = none :=
  ⟨c5_amended_present_nonnumeric_aborts.1 c5ds "data" c5var "bad" (by decide)
      (by with_unfolding_all rfl) (by decide) (by with_unfolding_all rfl),
   c5_amended_present_nonnumeric_aborts.2 c5hds c5hvar c5hpv "high"
      (by with_unfolding_all rfl) (by with_unfolding_all rfl)⟩

/-- C6: a target variable of rank below 2 makes visualize push the
dimensionality error to the message bar and return at once: no temporary
file is created, no raster exists, no layer is registered and nothing is
re-raised. -/
theorem c6_rank_check (ds : Dataset) (name : String) (var : Variable)
    (hn : name ≠ "") (hv : lookupVar ds name = some var)
    (h2 : var.shape.length < 2) :
    visualize ds name = ⟨[], none, [rankMessage name], [], none⟩ := by
  unfold visualize
  rw [if_neg hn]
  simp only [hv]
  rw [if_pos h2]

/-- C6 witness: the rank-1 witness variable aborts with the message and
an empty file list. -/
theorem c6_witness :
    visualize c6ds "data" = ⟨[], none, [rankMessage "data"], [], none⟩ :=
  c6_rank_check c6ds "data" c6var (by decide) (by with_unfolding_all rfl) (by decide)

/-- Helper: every transform the geotransform body returns has exactly six
elements. -/
theorem get_geotransform_body_six (ds : Dataset) (var : Variable)
    (gt : List ℚ) (names : String × String)
    (h : get_geotransform_body ds var = .ok (some (gt, names))) : gt.length = 6 := by
  unfold get_geotransform_body at h
  repeat' split at h
  all_goals (try simp_all)
  all_goals (repeat' split at h)
  all_goals (try simp_all)
  all_goals (obtain ⟨h1, h2⟩ := h; rw [← h1]; rfl)

/-- C8: the no-data value set on the band equals fill times scale plus
offset — the same linearization applied to the data after masking raw
fill values by exact equality — and with scale 1 and offset 0 the written
band equals the raw data unchanged (the cast to 32-bit float is the
identity on the rationals modelled here). -/
theorem c8_nodata_scaling (ds : Dataset) (name : String) (var : Variable)
    (fill scale offset : ℚ) (pr : Option SRS × Option String)
    (hn : name ≠ "") (hv : lookupVar ds name = some var)
    (h2 : var.shape.length = 2)
    (hf : fillOf var = .ok fill) (hs : scaleOf var = .ok scale)
    (ho : offsetOf var = .ok offset) (hp : get_projection_info ds = .ok pr) :
    ∃ r, (visualize ds name).raster = some r ∧
      r.nodata = some (fill * scale + offset) ∧
      r.band = some (var.data.map (fun v => v * scale + offset)) ∧
      (scale = 1 → offset = 0 → r.band = some var.data) := by
  rw [visualize_success ds name var fill scale offset pr hn hv h2 hf hs ho hp]
  refine ⟨_, rfl, rfl, rfl, ?_⟩
  intro h1 h0
  subst h1
  subst h0
  simp

/-- C8 witness: fill -999, scale 2, offset 1 on the witness dataset. -/
theorem c8_witness :
    ∃ r, (visualize c8ds "data").raster = some r ∧
      r.nodata = some ((-999) * 2 + 1) ∧
      r.band = some (c8var.data.map (fun v => v * 2 + 1)) ∧
      ((2 : ℚ) = 1 → (1 : ℚ) = 0 → r.band = some c8var.data) :=
  c8_nodata_scaling c8ds "data" c8var (-999) 2 1 (none, none) (by decide)
    (by with_unfolding_all rfl) (by rfl) (by with_unfolding_all rfl)
    (by with_unfolding_all rfl) (by with_unfolding_all rfl) (by with_unfolding_all rfl)

/-- C9: when no coordinate pair resolves (the geotransform builder
returns the None pair) the pipeline continues: nothing is raised, the
layer is registered, and the raster is completely written — band data
present, statistics computed, file closed — with no geotransform set. -/
theorem c9_no_coords_nonfatal (ds : Dataset) (name : String) (var : Variable)
    (fill scale offset : ℚ) (pr : Option SRS × Option String)
    (hn : name ≠ "") (hv : lookupVar ds name = some var)
    (h2 : var.shape.length = 2)
    (hf : fillOf var = .ok fill) (hs : scaleOf var = .ok scale)
    (ho : offsetOf var = .ok offset) (hp : get_projection_info ds = .ok pr)
    (hg : get_geotransform ds var = none) :
    (visualize ds name).raised = none ∧ (visualize ds name).layers = [name] ∧
      ∃ r, (visualize ds name).raster = some r ∧ r.geotransform = none ∧
        r.band.isSome = true ∧ r.statsComputed = true ∧ r.closed = true := by
  rw [visualize_success ds name var fill scale offset pr hn hv h2 hf hs ho hp]
  exact ⟨rfl, rfl, _, rfl, by simp [hg], rfl, rfl, rfl⟩

/-- C9 witness: the witness variable has no resolvable coordinates and
still produces a complete, un-georeferenced raster. -/
theorem c9_witness :
    (visualize c9ds "data").raised = none ∧ (visualize c9ds "data").layers = ["data"] ∧
      ∃ r, (visualize c9ds "data").raster = some r ∧ r.geotransform = none ∧
        r.band.isSome = true ∧ r.statsComputed = true ∧ r.closed = true :=
  c9_no_coords_nonfatal c9ds "data" c9var (-9999) 1 0 (none, none) (by decide)
    (by with_unfolding_all rfl) (by rfl) (by with_unfolding_all rfl)
    (by with_unfolding_all rfl) (by with_unfolding_all rfl) (by with_unfolding_all rfl)
    (by with_unfolding_all rfl)

/-- C10: the geotransform interface is total — the function either
returns a six-element transform together with the coordinate names or
the None pair, and every exception of the body is caught and converted
to the None pair rather than propagated. -/
theorem c10_total_interface (ds : Dataset) (var : Variable) :
    ((∃ gt names, get_geotransform ds var = some (gt, names) ∧ gt.length = 6) ∨
        get_geotransform ds var = none) ∧
      ∀ e, get_geotransform_body ds var = .error e → get_geotransform ds var = none := by
  constructor
  · rcases hb : get_geotransform_body ds var with e | r
    · right
      unfold get_geotransform
      rw [hb]
    · rcases r with _ | ⟨gt, names⟩
      · right
        unfold get_geotransform
        rw [hb]
      · left
        refine ⟨gt, names, ?_, get_geotransform_body_six ds var gt names hb⟩
        unfold get_geotransform
        rw [hb]
  · intro e he
    unfold get_geotransform
    rw [he]

/-- C10 witness: on the dataset with an empty y coordinate payload the
body raises an IndexError internally and the interface returns the None
pair. -/
theorem c10_witness : get_geotransform c10ds c10var = none :=
  (c10_total_interface c10ds c10var).2 "IndexError: index 0 is out of bounds"
    (by with_unfolding_all rfl)

/-- C7: when goes_imager_projection is present, both coordinate arrays
are multiplied by its perspective_point_height attribute — 35786023 when
the attribute is absent — before pixel sizes and origins are computed,
so for an ascending x axis and nonnegative height the stored pixel-width
equals abs of the radian coordinate step times the height, and the
magnitude of the stored pixel-height equals the y step times the
height. -/
theorem c7_goes_scaling (ds : Dataset) (var pv xv yv : Variable)
    (xn yn : String) (xs ys : List ℚ) (h : ℚ)
    (hres : resolveCoords ds var = .ok (some (xn, xv), some (yn, yv)))
    (hx : extractX xv = .ok xs) (hy : extractY yv = .ok ys)
    (hpv : lookupVar ds "goes_imager_projection" = some pv)
    (hh : heightOf pv = .num h) (hpos : 0 ≤ h)
    (hxlen : 2 ≤ xs.length) (hylen : 2 ≤ ys.length)
    (hasc : xs.getD 0 0 < xs.getD 1 0) :
    ∃ gt, get_geotransform ds var = some (gt, (xn, yn)) ∧
      gt.getD 1 0 = |xs.getD 1 0 - xs.getD 0 0| * h ∧
      |gt.getD 5 0| = |ys.getD 1 0 - ys.getD 0 0| * h ∧
      (getAttr pv "perspective_point_height" = none → h = 35786023) := by
  rcases xs with _ | ⟨a, xs1⟩
  · simp at hxlen
  rcases xs1 with _ | ⟨b, xt⟩
  · simp at hxlen
  rcases ys with _ | ⟨c, ys1⟩
  · simp at hylen
  rcases ys1 with _ | ⟨d, yt⟩
  · simp at hylen
  simp only [List.getD_cons_zero, List.getD_cons_succ] at hasc
  unfold get_geotransform get_geotransform_body
  simp only [hres, hx, hy, hpv, hh]
  simp only [List.length_cons, List.getD_cons_zero, List.getD_cons_succ, List.map_cons,
    List.get?_cons_zero, gt_iff_lt]
  have h1x : (1 : ℕ) < xt.length + 1 + 1 := by omega
  have h1y : (1 : ℕ) < yt.length + 1 + 1 := by omega
  simp only [if_pos h1x, if_pos h1y, hasc, decide_eq_true_eq, if_pos hasc]
  have hlx2 : (1 : ℕ) < (List.map (fun q => q * h) xt).length + 1 + 1 := by simp
  have hly2 : (1 : ℕ) < (List.map (fun q => q * h) yt).length + 1 + 1 := by simp
  simp only [if_pos hlx2, if_pos hly2, if_pos hasc]
  refine ⟨_, rfl, ?_, ?_, ?_⟩
  · simp only [List.getD_cons_succ, List.getD_cons_zero]
    rw [pyAbs_eq_abs, ← sub_mul, abs_mul, abs_of_nonneg hpos]
    simp
  · simp only [List.getD_cons_succ, List.getD_cons_zero]
    by_cases hcd : c < d
    · rw [if_pos hcd, neg_neg, pyAbs_eq_abs, abs_abs, ← sub_mul, abs_mul, abs_of_nonneg hpos]
    · rw [if_neg hcd, abs_neg, pyAbs_eq_abs, abs_abs, ← sub_mul, abs_mul, abs_of_nonneg hpos]
  · intro hnone
    unfold heightOf at hh
    rw [hnone] at hh
    simp only [Option.getD_none, AttrValue.num.injEq] at hh
    exact hh.symm

/-- C7 witness: radian-scale x = [0, 2], y = [2, 0] with the standard
height on the witness dataset. -/
theorem c7_witness :
    ∃ gt, get_geotransform c7ds c7var = some (gt, ("x", "y")) ∧
      gt.getD 1 0 = |([(0 : ℚ), 2].getD 1 0) - ([(0 : ℚ), 2].getD 0 0)| * 35786023 ∧
      |gt.getD 5 0| = |([(2 : ℚ), 0].getD 1 0) - ([(2 : ℚ), 0].getD 0 0)| * 35786023 ∧
      (getAttr c7pv "perspective_point_height" = none → (35786023 : ℚ) = 35786023) :=
  c7_goes_scaling c7ds c7var c7pv (mkVar ["x"] [2] [] [0, 2]) (mkVar ["y"] [2] [] [2, 0])
    "x" "y" [0, 2] [2, 0] 35786023 (by with_unfolding_all rfl)
    (by with_unfolding_all rfl) (by with_unfolding_all rfl) (by with_unfolding_all rfl)
    (by with_unfolding_all rfl) (by with_unfolding_all decide) (by decide) (by decide)
    (by with_unfolding_all decide)
